import Mathlib

/-!
Verification of the Sandboxed Execution & Resource Governance Engine of the
Nibiru backend.  The Python modules `sandbox_security.py`, `job_scheduler.py`,
`resource_monitor.py` and `sandbox.py` are shallowly embedded as pure Lean
functions: mutable service state (the dictionaries held by the service
objects) becomes explicit state records threaded through the operations,
wall-clock readings (`datetime.now()`) become explicit integer parameters,
and external effects (docker calls, file writes, sleeps) become explicit
action traces or outcome oracles.
-/

namespace Nibiru

/-- Lookup in an association list, the embedding of a Python dict read
`d[k]` / `d.get(k)`.  Keys are compared with decidable equality. -/
def alget {α : Type} (m : List (String × α)) (k : String) : Option α :=
  match m with
  | [] => none
  | (k2, v) :: rest => if k2 = k then some v else alget rest k

/-- Update-or-insert in an association list, the embedding of a Python dict
assignment `d[k] = v`. -/
def upsert {α : Type} (m : List (String × α)) (k : String) (v : α) :
    List (String × α) :=
  match m with
  | [] => [(k, v)]
  | (k2, v2) :: rest =>
      if k2 = k then (k, v) :: rest else (k2, v2) :: upsert rest k v

/-! ## Quota & Abuse Policy — `app/backend/services/sandbox_security.py`

Timestamps (`datetime` values) are embedded as integers counting seconds;
`datetime.now()` becomes an explicit `now` parameter.  Trust scores
(`quantum_score : float`) are embedded as rationals. -/

/-- Translation of `QuantumScoreTier`. -/
inductive QuantumScoreTier
  | bronze
  | silver
  | gold
  | platinum
deriving DecidableEq, Repr

/-- Translation of the dataclass `ResourceLimits`.  The docker-style
`memory` and `memory_swap` strings are kept verbatim. -/
structure ResourceLimits where
  cpu_period : Nat
  cpu_quota : Nat
  memory : String
  memory_swap : String
  pids_limit : Nat
  max_execution_time : Nat
  max_concurrent_jobs : Nat
  cooldown_period : Nat
  max_failed_attempts : Nat
deriving DecidableEq, Repr

/-- Translation of the `self.resource_limits` table built in
`SandboxSecurityService.__init__`. -/
def resource_limits : QuantumScoreTier → ResourceLimits
  | .bronze =>
      { cpu_period := 100000, cpu_quota := 25000, memory := "256m",
        memory_swap := "256m", pids_limit := 20, max_execution_time := 300,
        max_concurrent_jobs := 1, cooldown_period := 3600,
        max_failed_attempts := 3 }
  | .silver =>
      { cpu_period := 100000, cpu_quota := 50000, memory := "512m",
        memory_swap := "512m", pids_limit := 50, max_execution_time := 600,
        max_concurrent_jobs := 2, cooldown_period := 1800,
        max_failed_attempts := 5 }
  | .gold =>
      { cpu_period := 100000, cpu_quota := 75000, memory := "1g",
        memory_swap := "1g", pids_limit := 100, max_execution_time := 1200,
        max_concurrent_jobs := 3, cooldown_period := 900,
        max_failed_attempts := 10 }
  | .platinum =>
      { cpu_period := 100000, cpu_quota := 100000, memory := "2g",
        memory_swap := "2g", pids_limit := 200, max_execution_time := 3600,
        max_concurrent_jobs := 5, cooldown_period := 300,
        max_failed_attempts := 20 }

/-- Translation of `SandboxSecurityService.get_resource_limits`: the
`user_id` argument is accepted but never read; the tier is selected from the
quantum score by the if/elif chain. -/
def get_resource_limits (user_id : String) (quantum_score : ℚ) :
    ResourceLimits :=
  if 90 ≤ quantum_score then resource_limits .platinum
  else if 75 ≤ quantum_score then resource_limits .gold
  else if 50 ≤ quantum_score then resource_limits .silver
  else resource_limits .bronze

/-- Mutable state of `SandboxSecurityService`: the `failed_attempts` and
`cooldowns` dictionaries (the append-only log dictionaries are not relevant
to the claims below). -/
structure SecurityState where
  failed_attempts : List (String × List Int)
  cooldowns : List (String × Int)
deriving DecidableEq, Repr

/-- Translation of `SandboxSecurityService.check_cooldown`.  The Python
function formats the remaining time into a message string; the embedding
returns the remaining seconds themselves (`some remaining` for the message,
`none` for Python `None`). -/
def check_cooldown (st : SecurityState) (user_id : String) (now : Int) :
    Option Int :=
  match alget st.cooldowns user_id with
  | some cooldown_end =>
      if now < cooldown_end then some (cooldown_end - now) else none
  | none => none

/-- Translation of `SandboxSecurityService.record_failed_attempt`.  Note
that the source takes `(user_id, ip_address, error_code)` — no limit
profile — and derives the limits from `get_resource_limits(user_id, 0)`,
i.e. always the bronze tier.  Returns the new state and the boolean the
source returns (`True` when the user is put in cooldown). -/
def record_failed_attempt (st : SecurityState) (user_id : String)
    (ip_address : String) (error_code : Int) (now : Int) :
    SecurityState × Bool :=
  let attempts := ((alget st.failed_attempts user_id).getD []) ++ [now]
  let limits := get_resource_limits user_id 0
  let cutoff := now - (limits.cooldown_period : Int)
  let attempts := attempts.filter (fun a => cutoff < a)
  if limits.max_failed_attempts ≤ attempts.length then
    ({ failed_attempts := upsert st.failed_attempts user_id attempts,
       cooldowns := upsert st.cooldowns user_id
         (now + (limits.cooldown_period : Int)) }, true)
  else
    ({ st with failed_attempts := upsert st.failed_attempts user_id attempts },
     false)

/-- Byte value of a docker memory string such as `"256m"` or `"1g"`:
leading decimal digits followed by a unit suffix.  Used only to compare the
generosity of the `memory` fields of two limit profiles. -/
def memDigits : List Char → Nat → Nat × List Char
  | [], acc => (acc, [])
  | c :: cs, acc =>
      if c.isDigit then memDigits cs (acc * 10 + (c.toNat - 48))
      else (acc, c :: cs)

/-- Multiplier of a docker memory unit suffix. -/
def memUnit : List Char → Nat
  | [] => 1
  | c :: _ =>
      if c = 'k' then 1024
      else if c = 'm' then 1024 * 1024
      else if c = 'g' then 1024 * 1024 * 1024
      else 1

/-- Bytes denoted by a docker memory string. -/
def memBytes (s : String) : Nat :=
  let p := memDigits s.toList 0
  p.1 * memUnit p.2

/-! ## Batch Scheduler — `app/backend/services/job_scheduler.py`

Python keeps each job as a mutable dict inside `batch.jobs`; the same list
object (and hence the same dict objects) can be referenced from several
batches — `retry_batch` passes `jobs=batch.jobs` to `create_batch` without
copying.  The embedding therefore stores jobs in a shared heap
(`job_store`, keyed by an abstract reference number) and a batch's `jobs`
field holds references into that heap, which reproduces Python's aliasing
exactly.  `datetime.now()` readings become explicit `now` parameters, and
`batch_id = f"{user_id}_{datetime.now().timestamp()}"` becomes
`user_id ++ "_" ++ toString now`. -/

/-- Translation of `BatchStatus`. -/
inductive BatchStatus
  | pending
  | running
  | completed
  | failed
  | cancelled
deriving DecidableEq, Repr

/-- Status a job dict carries in its `"status"` key; `pending` stands for
the state before the executor has written the key. -/
inductive JobStatus
  | pending
  | completed
  | failed
deriving DecidableEq, Repr

/-- One job dict: its `"status"` and `"error"` entries, the fields the
scheduler reads and writes. -/
structure Job where
  status : JobStatus
  error : Option String
deriving DecidableEq, Repr

/-- Translation of the dataclass `JobBatch`; `jobs` holds references into
the shared job heap. -/
structure JobBatch where
  batch_id : String
  user_id : String
  script_id : String
  jobs : List Nat
  status : BatchStatus
  created_at : Int
  started_at : Option Int
  completed_at : Option Int
  delay_between_jobs : Nat
  backend_balancing : Bool
  error_message : Option String
deriving DecidableEq, Repr

/-- Mutable state of `JobSchedulerService`: the `batches` dictionary plus
the shared heap of job dicts. -/
structure SchedulerState where
  batches : List (String × JobBatch)
  job_store : List (Nat × Job)
deriving DecidableEq, Repr

/-- Translation of `JobSchedulerService.create_batch` (the state part: the
new batch is registered as `pending`; the asynchronous execution it
schedules is modelled separately by `execute_batch`). -/
def create_batch (st : SchedulerState) (user_id script_id : String)
    (jobs : List Nat) (delay_between_jobs : Nat) (backend_balancing : Bool)
    (now : Int) : SchedulerState × JobBatch :=
  let batch_id := user_id ++ "_" ++ toString now
  let batch : JobBatch :=
    { batch_id := batch_id, user_id := user_id, script_id := script_id,
      jobs := jobs, status := .pending, created_at := now,
      started_at := none, completed_at := none,
      delay_between_jobs := delay_between_jobs,
      backend_balancing := backend_balancing, error_message := none }
  ({ st with batches := upsert st.batches batch_id batch }, batch)

/-- Translation of `JobSchedulerService.cancel_batch`. -/
def cancel_batch (st : SchedulerState) (batch_id : String) (now : Int) :
    SchedulerState × Bool :=
  match alget st.batches batch_id with
  | none => (st, false)
  | some batch =>
      if batch.status = .pending ∨ batch.status = .running then
        ({ st with
            batches := upsert st.batches batch_id
              { batch with status := .cancelled,
                           completed_at := some now,
                           error_message := some "Batch cancelled by user" } },
         true)
      else (st, false)

/-- Translation of `JobSchedulerService.retry_batch`: valid only from
`failed`; calls `create_batch` with the original parameters — including
the *same* `jobs` references, exactly as the Python passes
`jobs=batch.jobs`. -/
def retry_batch (st : SchedulerState) (batch_id : String) (now : Int) :
    SchedulerState × Option JobBatch :=
  match alget st.batches batch_id with
  | none => (st, none)
  | some batch =>
      if batch.status = .failed then
        let r := create_batch st batch.user_id batch.script_id batch.jobs
          batch.delay_between_jobs batch.backend_balancing now
        (r.1, some r.2)
      else (st, none)

/-- Heap lookup of a job reference. -/
def jget (store : List (Nat × Job)) (ref : Nat) : Option Job :=
  match store with
  | [] => none
  | (r, j) :: rest => if r = ref then some j else jget rest ref

/-- Heap update of a job reference. -/
def jset (store : List (Nat × Job)) (ref : Nat) (j : Job) :
    List (Nat × Job) :=
  match store with
  | [] => [(ref, j)]
  | (r, j2) :: rest =>
      if r = ref then (ref, j) :: rest else (r, j2) :: jset rest ref j

/-- Translation of `JobSchedulerService._execute_job` (success path): the
placeholder body writes `job["status"] = "completed"`. -/
def execute_job (store : List (Nat × Job)) (ref : Nat) :
    List (Nat × Job) :=
  match jget store ref with
  | none => store
  | some job => jset store ref { job with status := .completed }

/-- Per-job exception handler in `_execute_batch`: on a job failure the
loop writes `job["status"] = "failed"` and `job["error"] = str(e)` and
continues. -/
def fail_job (store : List (Nat × Job)) (ref : Nat) (msg : String) :
    List (Nat × Job) :=
  match jget store ref with
  | none => store
  | some job =>
      jset store ref { job with status := .failed, error := some msg }

/-- Observable scheduling effect of the execution loop: the inter-job
`asyncio.sleep(delay_between_jobs)` and the execution of one job. -/
inductive SchedAction
  | sleep (seconds : Nat)
  | run_job (ref : Nat)
deriving DecidableEq, Repr

/-- The `for i, job in enumerate(batch.jobs)` loop of `_execute_batch`, run
without cancellation: `outcomes` is the oracle saying whether
`_execute_job` returns normally (`true`) or raises (`false`) for each job;
a missing oracle entry defaults to success.  Each iteration re-checks the
batch status exactly as the source does. -/
def execute_jobs (status : BatchStatus) (delay : Nat) :
    List Nat → List Bool → List (Nat × Job) → Nat →
    List (Nat × Job) × List SchedAction
  | [], _, store, _ => (store, [])
  | ref :: refs, outcomes, store, i =>
      if status ≠ .running then (store, [])
      else
        let pre : List SchedAction :=
          if 0 < i ∧ 0 < delay then [.sleep delay] else []
        let ok := outcomes.headD true
        let store2 :=
          if ok then execute_job store ref
          else fail_job store ref "job error"
        let r := execute_jobs status delay refs (outcomes.drop 1) store2
          (i + 1)
        (r.1, pre ++ [.run_job ref] ++ r.2)

/-- Completion step at the end of `_execute_batch`: only a batch still
`running` is moved to `completed`. -/
def complete_batch_step (batch : JobBatch) (now : Int) : JobBatch :=
  if batch.status = .running then
    { batch with status := .completed, completed_at := some now }
  else batch

/-- Translation of `JobSchedulerService._execute_batch` on the path with no
cancellation and no scheduler-internal exception: the batch is set
`running`, the jobs run in order through `execute_jobs`, and the
completion step runs at the end. -/
def execute_batch (st : SchedulerState) (batch_id : String)
    (outcomes : List Bool) (now : Int) : SchedulerState × List SchedAction :=
  match alget st.batches batch_id with
  | none => (st, [])
  | some batch =>
      let b1 := { batch with status := .running, started_at := some now }
      let r := execute_jobs b1.status b1.delay_between_jobs b1.jobs outcomes
        st.job_store 0
      let b2 := complete_batch_step b1 now
      ({ batches := upsert st.batches batch_id b2, job_store := r.1 }, r.2)

/-- Per-job statuses of a batch as seen through the shared heap. -/
def jobStatuses (st : SchedulerState) (batch_id : String) :
    Option (List JobStatus) :=
  (alget st.batches batch_id).map (fun b =>
    b.jobs.map (fun r => ((jget st.job_store r).map Job.status).getD .pending))

/-! ## Resource Monitor — `app/backend/services/resource_monitor.py`

Percentages (`float` in the source) are embedded as rationals, byte
counters as integers, timestamps as integers. -/

/-- Translation of `ResourceEventType`. -/
inductive ResourceEventType
  | cpu_peak
  | memory_peak
  | throttling
  | error
deriving DecidableEq, Repr

/-- Translation of the dataclass `ResourceMetrics`; the I/O and network
fields already hold the deltas computed in `_monitor_resources`. -/
structure ResourceMetrics where
  cpu_percent : ℚ
  memory_percent : ℚ
  memory_used : Int
  memory_total : Int
  io_read_bytes : Int
  io_write_bytes : Int
  network_sent_bytes : Int
  network_recv_bytes : Int
  timestamp : Int
deriving DecidableEq, Repr

/-- Contents of the `details` dict attached to a `ResourceEvent` by
`_check_resource_events`: one constructor per dict shape the source
builds. -/
inductive EventDetails
  | cpu (cpu_percent : ℚ)
  | mem (memory_percent : ℚ)
  | io (io_read io_write : Int)
  | net (network_sent network_recv : Int)
deriving DecidableEq, Repr

/-- Translation of the dataclass `ResourceEvent`. -/
structure ResourceEvent where
  event_type : ResourceEventType
  job_id : String
  timestamp : Int
  details : EventDetails
  metrics : ResourceMetrics
deriving DecidableEq, Repr

/-- The `self.thresholds` dict of `ResourceMonitorService.__init__`. -/
structure Thresholds where
  cpu_peak : ℚ
  memory_peak : ℚ
  io_threshold : Int
  network_threshold : Int
deriving DecidableEq, Repr

/-- Threshold values from the source: 80.0 %, 80.0 %, 100 MB/s, 50 MB/s. -/
def thresholds : Thresholds :=
  { cpu_peak := 80, memory_peak := 80,
    io_threshold := 1024 * 1024 * 100,
    network_threshold := 1024 * 1024 * 50 }

/-- The event list built by `_check_resource_events` for one sample: the
four guarded appends, in source order. -/
def check_resource_events_list (job_id : String) (metrics : ResourceMetrics) :
    List ResourceEvent :=
  (if thresholds.cpu_peak ≤ metrics.cpu_percent then
    [{ event_type := .cpu_peak, job_id := job_id,
       timestamp := metrics.timestamp,
       details := .cpu metrics.cpu_percent, metrics := metrics }]
   else []) ++
  (if thresholds.memory_peak ≤ metrics.memory_percent then
    [{ event_type := .memory_peak, job_id := job_id,
       timestamp := metrics.timestamp,
       details := .mem metrics.memory_percent, metrics := metrics }]
   else []) ++
  (if thresholds.io_threshold ≤ metrics.io_read_bytes + metrics.io_write_bytes
   then
    [{ event_type := .throttling, job_id := job_id,
       timestamp := metrics.timestamp,
       details := .io metrics.io_read_bytes metrics.io_write_bytes,
       metrics := metrics }]
   else []) ++
  (if thresholds.network_threshold ≤
      metrics.network_sent_bytes + metrics.network_recv_bytes then
    [{ event_type := .throttling, job_id := job_id,
       timestamp := metrics.timestamp,
       details := .net metrics.network_sent_bytes metrics.network_recv_bytes,
       metrics := metrics }]
   else [])

/-- Mutable state of `ResourceMonitorService`: the `job_metrics` and
`job_events` dictionaries and the key set of `monitoring_tasks`. -/
structure MonitorState where
  job_metrics : List (String × List ResourceMetrics)
  job_events : List (String × List ResourceEvent)
  monitoring_tasks : List String
deriving DecidableEq, Repr

/-- State effect of `_check_resource_events`: when the event list is
nonempty it is appended to the job's event log (creating the entry when
missing, as the source's membership test does). -/
def check_resource_events (st : MonitorState) (job_id : String)
    (metrics : ResourceMetrics) : MonitorState :=
  let events := check_resource_events_list job_id metrics
  let appended := ((alget st.job_events job_id).getD []) ++ events
  if events = [] then st
  else { st with job_events := upsert st.job_events job_id appended }

/-- Translation of `ResourceMonitorService.start_monitoring`: a job already
being monitored is left untouched; otherwise its metric and event logs are
reset and a sampling task is registered. -/
def start_monitoring (st : MonitorState) (job_id : String) : MonitorState :=
  if job_id ∈ st.monitoring_tasks then st
  else
    { job_metrics := upsert st.job_metrics job_id [],
      job_events := upsert st.job_events job_id [],
      monitoring_tasks := st.monitoring_tasks ++ [job_id] }

/-- File writes `stop_monitoring` performs when it actually stops a task. -/
inductive LogWrite
  | metricsLog (job_id : String)
  | eventsLog (job_id : String)
deriving DecidableEq, Repr

/-- Translation of `ResourceMonitorService.stop_monitoring`: when the job
has a registered sampling task the task is cancelled and removed and the
final metric and event logs are flushed; otherwise nothing happens. -/
def stop_monitoring (st : MonitorState) (job_id : String) :
    MonitorState × List LogWrite :=
  if job_id ∈ st.monitoring_tasks then
    ({ st with
        monitoring_tasks := st.monitoring_tasks.filter (· ≠ job_id) },
     [.metricsLog job_id, .eventsLog job_id])
  else (st, [])

/-! ## Isolation Manager — `app/backend/utils/sandbox.py`

The `create_environment` context manager drives docker calls and a caller
body; these effects are embedded as an oracle (which steps succeed) and a
trace of the docker operations actually performed.  A `false` oracle entry
means the corresponding call raises. -/

/-- How the block under `with create_environment()` exits. -/
inductive BodyOutcome
  | ok
  | exn
  | cancelled
deriving DecidableEq, Repr

/-- Docker operations actually performed by `create_environment`; an action
appears in the trace only when the call succeeded. -/
inductive EnvAction
  | createContainer
  | startContainer
  | mkdirSandbox
  | setupRestrictions
  | runBody
  | stopContainer
  | removeContainer
deriving DecidableEq, Repr

/-- Caller-visible exit of `create_environment`. -/
inductive EnvExit
  | completed
  | raised
  | cancelled
deriving DecidableEq, Repr

/-- Outcome oracle for one `create_environment` run. -/
structure EnvOracle where
  createOk : Bool
  startOk : Bool
  mkdirOk : Bool
  restrictOk : Bool
  body : BodyOutcome
  stopOk : Bool
  removeOk : Bool
deriving DecidableEq, Repr

/-- Result of one `create_environment` run: the caller-visible exit, the
docker operations performed, and the number of cleanup failures logged by
the `except` clause inside the `finally` block. -/
structure EnvRun where
  result : EnvExit
  actions : List EnvAction
  cleanup_errors : Nat
deriving DecidableEq, Repr

/-- Translation of `SandboxEnvironment.create_environment`.  The `finally`
block runs whenever `container` was assigned (creation succeeded): it
calls `container.stop()` then `container.remove(force=True)` inside a
`try` whose `except` only logs, so a destruction failure never changes the
caller-visible exit; when `stop` raises, `remove` is not reached. -/
def create_environment (o : EnvOracle) : EnvRun :=
  if o.createOk = false then
    { result := .raised, actions := [], cleanup_errors := 0 }
  else
    let pre : EnvExit × List EnvAction :=
      if o.startOk = false then
        (.raised, [.createContainer])
      else if o.mkdirOk = false then
        (.raised, [.createContainer, .startContainer])
      else if o.restrictOk = false then
        (.raised, [.createContainer, .startContainer, .mkdirSandbox])
      else
        match o.body with
        | .ok => (.completed, [.createContainer, .startContainer,
            .mkdirSandbox, .setupRestrictions, .runBody])
        | .exn => (.raised, [.createContainer, .startContainer,
            .mkdirSandbox, .setupRestrictions, .runBody])
        | .cancelled => (.cancelled, [.createContainer, .startContainer,
            .mkdirSandbox, .setupRestrictions, .runBody])
    let teardown : List EnvAction × Nat :=
      if o.stopOk then
        if o.removeOk then ([.stopContainer, .removeContainer], 0)
        else ([.stopContainer], 1)
      else ([], 1)
    { result := pre.1, actions := pre.2 ++ teardown.1,
      cleanup_errors := teardown.2 }

/-- Translation of `SandboxEnvironment.verify_code_signature`: the body is
a bare `return True` (the signature check is unimplemented), so the
`except` clause that would return `False` is unreachable. -/
def verify_code_signature (code : String) (signature : String)
    (public_key : String) : Bool :=
  true

/-! ## Derived notions and concrete fixtures used by the theorems -/

/-- Tier selected by the if/elif chain of `get_resource_limits`. -/
def tierOf (s : ℚ) : QuantumScoreTier :=
  if 90 ≤ s then .platinum
  else if 75 ≤ s then .gold
  else if 50 ≤ s then .silver
  else .bronze

/-- Rank of a tier, lowest to highest. -/
def tierIdx : QuantumScoreTier → Nat
  | .bronze => 0
  | .silver => 1
  | .gold => 2
  | .platinum => 3

/-- Expected action trace of the execution loop: the inter-job sleep runs
before every job after the first (when the delay is positive), then the
job itself. -/
def job_trace (delay : Nat) : List Nat → Nat → List SchedAction
  | [], _ => []
  | ref :: refs, i =>
      (if 0 < i ∧ 0 < delay then [SchedAction.sleep delay] else []) ++
      SchedAction.run_job ref :: job_trace delay refs (i + 1)

/-- Security state with the caller `alice` in cooldown until t = 200. -/
def c1_security : SecurityState :=
  { failed_attempts := [], cooldowns := [("alice", 200)] }

/-- One job dict that has already failed once. -/
def c4_job : Job := { status := .failed, error := some "boom" }

/-- One failed one-job batch, kept as a historical record. -/
def c4_orig : JobBatch :=
  { batch_id := "u_1", user_id := "u", script_id := "s", jobs := [0],
    status := .failed, created_at := 1, started_at := some 1,
    completed_at := some 1, delay_between_jobs := 0,
    backend_balancing := false, error_message := some "err" }

/-- Scheduler state holding the failed batch and its job dict. -/
def c4_state : SchedulerState :=
  { batches := [("u_1", c4_orig)], job_store := [(0, c4_job)] }

/-- Cancelled one-job batch used to exercise the terminal-state clauses. -/
def c6_batch : JobBatch :=
  { batch_id := "b1", user_id := "u", script_id := "s", jobs := [0],
    status := .cancelled, created_at := 1, started_at := some 1,
    completed_at := some 2, delay_between_jobs := 0,
    backend_balancing := false, error_message := some "Batch cancelled by user" }

/-- Scheduler state holding the cancelled batch. -/
def c6_state : SchedulerState :=
  { batches := [("b1", c6_batch)], job_store := [(0, ⟨.pending, none⟩)] }

/-- Pending three-job batch with a two-second inter-job delay
(end-to-end scenario D). -/
def c7_batch : JobBatch :=
  { batch_id := "u_1", user_id := "u", script_id := "s", jobs := [0, 1, 2],
    status := .pending, created_at := 1, started_at := none,
    completed_at := none, delay_between_jobs := 2,
    backend_balancing := false, error_message := none }

/-- Scheduler state holding the three-job batch and its job dicts. -/
def c7_state : SchedulerState :=
  { batches := [("u_1", c7_batch)],
    job_store := [(0, ⟨.pending, none⟩), (1, ⟨.pending, none⟩),
      (2, ⟨.pending, none⟩)] }

/-- Metric sample whose CPU reading is above the 80 % threshold and whose
other readings are below their thresholds. -/
def c8_sample : ResourceMetrics :=
  { cpu_percent := 95, memory_percent := 10, memory_used := 1000,
    memory_total := 2000, io_read_bytes := 0, io_write_bytes := 0,
    network_sent_bytes := 0, network_recv_bytes := 0, timestamp := 7 }

/-! ## Helper lemmas -/

theorem alget_upsert_self {α : Type} (m : List (String × α)) (k : String)
    (v : α) : alget (upsert m k v) k = some v := by
  induction m with
  | nil => simp [alget, upsert]
  | cons p rest ih =>
      obtain ⟨k2, v2⟩ := p
      by_cases h : k2 = k <;> simp [alget, upsert, h, ih]

theorem alget_upsert_ne {α : Type} (m : List (String × α)) (k k2 : String)
    (v : α) (h : k ≠ k2) : alget (upsert m k v) k2 = alget m k2 := by
  induction m with
  | nil => simp [alget, upsert, h]
  | cons p rest ih =>
      obtain ⟨k3, v3⟩ := p
      by_cases h3 : k3 = k
      · subst h3
        simp [alget, upsert, h]
      · simp [alget, upsert, h3, ih]

theorem jget_jset_self (store : List (Nat × Job)) (ref : Nat) (j : Job) :
    jget (jset store ref j) ref = some j := by
  induction store with
  | nil => simp [jget, jset]
  | cons p rest ih =>
      obtain ⟨r, j2⟩ := p
      by_cases h : r = ref <;> simp [jget, jset, h, ih]

theorem jget_jset_ne (store : List (Nat × Job)) (ref r2 : Nat) (j : Job)
    (h : ref ≠ r2) : jget (jset store ref j) r2 = jget store r2 := by
  induction store with
  | nil => simp [jget, jset, h]
  | cons p rest ih =>
      obtain ⟨r3, j3⟩ := p
      by_cases h3 : r3 = ref
      · subst h3
        simp [jget, jset, h]
      · simp [jget, jset, h3, ih]

theorem jget_execute_job_ne (store : List (Nat × Job)) (ref r2 : Nat)
    (h : ref ≠ r2) : jget (execute_job store ref) r2 = jget store r2 := by
  unfold execute_job
  cases jget store ref with
  | none => rfl
  | some j => simp [jget_jset_ne _ _ _ _ h]

theorem jget_fail_job_ne (store : List (Nat × Job)) (ref r2 : Nat)
    (msg : String) (h : ref ≠ r2) :
    jget (fail_job store ref msg) r2 = jget store r2 := by
  unfold fail_job
  cases jget store ref with
  | none => rfl
  | some j => simp [jget_jset_ne _ _ _ _ h]

theorem get_resource_limits_eq_tier (u : String) (s : ℚ) :
    get_resource_limits u s = resource_limits (tierOf s) := by
  unfold get_resource_limits tierOf
  split_ifs <;> rfl

theorem tierIdx_tierOf_mono {s1 s2 : ℚ} (h : s1 ≤ s2) :
    tierIdx (tierOf s1) ≤ tierIdx (tierOf s2) := by
  unfold tierOf
  split_ifs <;> first | decide | linarith

theorem resource_limits_mono (t1 t2 : QuantumScoreTier)
    (h : tierIdx t1 ≤ tierIdx t2) :
    (resource_limits t1).cpu_quota ≤ (resource_limits t2).cpu_quota ∧
    memBytes (resource_limits t1).memory
      ≤ memBytes (resource_limits t2).memory ∧
    (resource_limits t1).pids_limit ≤ (resource_limits t2).pids_limit ∧
    (resource_limits t1).max_execution_time
      ≤ (resource_limits t2).max_execution_time ∧
    (resource_limits t1).max_concurrent_jobs
      ≤ (resource_limits t2).max_concurrent_jobs ∧
    (resource_limits t1).max_failed_attempts
      ≤ (resource_limits t2).max_failed_attempts ∧
    (resource_limits t2).cooldown_period
      ≤ (resource_limits t1).cooldown_period := by
  cases t1 <;> cases t2 <;> revert h <;> decide

theorem get_resource_limits_zero (u : String) :
    get_resource_limits u 0 = resource_limits .bronze := by
  unfold get_resource_limits
  norm_num

/-! ## Claim theorems -/

/-- C10: `verify_code_signature` returns `True` on every input triple
`(code, signature, public_key)`: the check never rejects a payload, so no
execution can be blocked or logged as a signature mismatch on the basis of
this check. -/
theorem C10_verify_signature_always_true (code signature public_key : String) :
    verify_code_signature code signature public_key = true := rfl

/-- C9: `stop_monitoring` is idempotent: calling it on a job without a
registered sampling task (never started, or already stopped) returns the
state unchanged and performs no log write, and a second call right after a
first one is such a no-op. -/
theorem C9_stop_monitoring_idempotent (st : MonitorState) (job_id : String) :
    stop_monitoring (stop_monitoring st job_id).1 job_id
      = ((stop_monitoring st job_id).1, []) ∧
    (job_id ∉ st.monitoring_tasks → stop_monitoring st job_id = (st, [])) := by
  have key : ∀ s : MonitorState, job_id ∉ s.monitoring_tasks →
      stop_monitoring s job_id = (s, []) := by
    intro s hs
    simp [stop_monitoring, hs]
  refine ⟨?_, key st⟩
  by_cases h : job_id ∈ st.monitoring_tasks
  · apply key
    simp [stop_monitoring, h, List.mem_filter]
  · rw [key st h]
    exact key st h

/-- C9 witness: evaluated on a state monitoring exactly the job `"j"`: an
unknown job is a no-op, and a second stop after the first is a no-op. -/
theorem C9_stop_monitoring_idempotent_witness :
    stop_monitoring ⟨[], [], []⟩ "job" = (⟨[], [], []⟩, []) ∧
    stop_monitoring (stop_monitoring ⟨[("j", [])], [("j", [])], ["j"]⟩ "j").1 "j"
      = ((stop_monitoring ⟨[("j", [])], [("j", [])], ["j"]⟩ "j").1, []) :=
  ⟨(C9_stop_monitoring_idempotent ⟨[], [], []⟩ "job").2 (by decide),
   (C9_stop_monitoring_idempotent ⟨[("j", [])], [("j", [])], ["j"]⟩ "j").1⟩

/-- C8: a metric sample whose `cpu_percent` is at least 80 makes the
threshold check emit exactly one `cpu_peak` event, whose details record a
`cpu_percent` value at least 80; the four checks are independent (the
event count is the sum of the four independent indicator values, so a
sample may produce zero, one, or several events), and the emitted events
are appended to the job's event list. -/
theorem C8_cpu_peak_event (job_id : String) (st : MonitorState)
    (m : ResourceMetrics) (h : 80 ≤ m.cpu_percent) :
    (check_resource_events_list job_id m).filter
        (fun e => e.event_type = .cpu_peak)
      = [{ event_type := .cpu_peak, job_id := job_id,
           timestamp := m.timestamp, details := .cpu m.cpu_percent,
           metrics := m }] ∧
    (∀ e ∈ check_resource_events_list job_id m, e.event_type = .cpu_peak →
       ∃ c, e.details = EventDetails.cpu c ∧ 80 ≤ c) ∧
    (check_resource_events_list job_id m).length
      = (if 80 ≤ m.cpu_percent then 1 else 0)
        + (if 80 ≤ m.memory_percent then 1 else 0)
        + (if (104857600 : Int) ≤ m.io_read_bytes + m.io_write_bytes then 1
           else 0)
        + (if (52428800 : Int) ≤
             m.network_sent_bytes + m.network_recv_bytes then 1 else 0) ∧
    alget (check_resource_events st job_id m).job_events job_id
      = some (((alget st.job_events job_id).getD [])
          ++ check_resource_events_list job_id m) := by
  have e1 : thresholds.cpu_peak = 80 := rfl
  have e2 : thresholds.memory_peak = 80 := rfl
  have e3 : thresholds.io_threshold = 104857600 := rfl
  have e4 : thresholds.network_threshold = 52428800 := rfl
  have hfilter : (check_resource_events_list job_id m).filter
      (fun e => e.event_type = .cpu_peak)
      = [{ event_type := .cpu_peak, job_id := job_id,
           timestamp := m.timestamp, details := .cpu m.cpu_percent,
           metrics := m }] := by
    unfold check_resource_events_list
    rw [e1, e2, e3, e4]
    simp only [h, if_true]
    split_ifs <;> simp [List.filter_append]
  have hnonempty : check_resource_events_list job_id m ≠ [] := by
    intro hnil
    have := hfilter
    rw [hnil] at this
    simp at this
  refine ⟨hfilter, ?_, ?_, ?_⟩
  · intro e he htype
    have hmem : e ∈ (check_resource_events_list job_id m).filter
        (fun e => e.event_type = .cpu_peak) := by
      simp [List.mem_filter, he, htype]
    rw [hfilter] at hmem
    simp only [List.mem_singleton] at hmem
    subst hmem
    exact ⟨m.cpu_percent, rfl, h⟩
  · unfold check_resource_events_list
    rw [e1, e2, e3, e4]
    split_ifs <;> simp
  · unfold check_resource_events
    simp only [hnonempty, if_false]
    exact alget_upsert_self _ _ _

/-- C8 witness: evaluated on the sample with `cpu_percent = 95` and all
other readings below threshold. -/
theorem C8_cpu_peak_event_witness :
    (check_resource_events_list "j" c8_sample).filter
        (fun e => e.event_type = .cpu_peak)
      = [{ event_type := .cpu_peak, job_id := "j", timestamp := 7,
           details := .cpu 95, metrics := c8_sample }] ∧
    (check_resource_events_list "j" c8_sample).length = 1 ∧
    alget (check_resource_events ⟨[], [], []⟩ "j" c8_sample).job_events "j"
      = some (check_resource_events_list "j" c8_sample) := by
  have h := C8_cpu_peak_event "j" ⟨[], [], []⟩ c8_sample (by decide)
  refine ⟨h.1, ?_, ?_⟩
  · rw [h.2.2.1]
    decide
  · have h4 := h.2.2.2
    simpa using h4

/-- C2: on every exit path of `create_environment` on which the container
was created (normal completion of the body, exception in restriction
setup or in the body, or cancellation), the teardown runs: when
destruction succeeds the container is stopped and removed with no cleanup
error; a destruction failure is logged as exactly one cleanup error; and
the caller-visible exit is always the one of an identical run whose
destruction succeeds, so a destruction failure is never propagated. -/
theorem C2_create_environment_teardown (o : EnvOracle)
    (hc : o.createOk = true) :
    (o.stopOk = true → o.removeOk = true →
       (create_environment o).actions.count .stopContainer = 1 ∧
       (create_environment o).actions.count .removeContainer = 1 ∧
       (create_environment o).cleanup_errors = 0) ∧
    ((o.stopOk = false ∨ o.removeOk = false) →
       (create_environment o).cleanup_errors = 1) ∧
    (create_environment o).result
      = (create_environment
          { o with stopOk := true, removeOk := true }).result ∧
    (o.startOk = true → o.mkdirOk = true → o.restrictOk = true →
       (create_environment o).result
         = (match o.body with
            | .ok => EnvExit.completed
            | .exn => EnvExit.raised
            | .cancelled => EnvExit.cancelled)) := by
  obtain ⟨c, s, m, r, b, sk, rk⟩ := o
  subst hc
  cases s <;> cases m <;> cases r <;> cases b <;> cases sk <;> cases rk <;>
    decide

/-- C2 witness: evaluated on the run whose body raises and whose container
stop fails. -/
theorem C2_create_environment_teardown_witness :
    (create_environment ⟨true, true, true, true, .exn, false, true⟩).result
      = .raised ∧
    (create_environment
        ⟨true, true, true, true, .exn, false, true⟩).cleanup_errors = 1 ∧
    (create_environment ⟨true, true, true, true, .exn, true, true⟩).actions.count
        EnvAction.removeContainer = 1 := by
  have h1 := C2_create_environment_teardown
    ⟨true, true, true, true, .exn, false, true⟩ rfl
  have h2 := C2_create_environment_teardown
    ⟨true, true, true, true, .exn, true, true⟩ rfl
  refine ⟨?_, h1.2.1 (Or.inl rfl), (h2.1 rfl rfl).2.1⟩
  rw [h1.2.2.1]
  exact h1.2.2.2 rfl rfl rfl

/-- C5: `get_resource_limits` depends only on the trust score (the
`user_id` argument is ignored), selects exactly the four discrete tiers by
the thresholds 90 / 75 / 50, and for scores `s1 ≤ s2` in `[0, 100]` every
field is at least as generous at `s2`: cpu quota, memory bytes, pid limit,
execution time, concurrent jobs and allowed failed attempts are
non-decreasing, and the cooldown duration is non-increasing. -/
theorem C5_get_limits_tiers_and_monotone (u1 u2 : String) (s s1 s2 : ℚ)
    (h12 : s1 ≤ s2) (h0 : 0 ≤ s1) (h100 : s2 ≤ 100) :
    get_resource_limits u1 s = get_resource_limits u2 s ∧
    (90 ≤ s → get_resource_limits u1 s = resource_limits .platinum) ∧
    (75 ≤ s → s < 90 → get_resource_limits u1 s = resource_limits .gold) ∧
    (50 ≤ s → s < 75 → get_resource_limits u1 s = resource_limits .silver) ∧
    (s < 50 → get_resource_limits u1 s = resource_limits .bronze) ∧
    ((get_resource_limits u1 s1).cpu_quota
        ≤ (get_resource_limits u1 s2).cpu_quota ∧
     memBytes (get_resource_limits u1 s1).memory
        ≤ memBytes (get_resource_limits u1 s2).memory ∧
     (get_resource_limits u1 s1).pids_limit
        ≤ (get_resource_limits u1 s2).pids_limit ∧
     (get_resource_limits u1 s1).max_execution_time
        ≤ (get_resource_limits u1 s2).max_execution_time ∧
     (get_resource_limits u1 s1).max_concurrent_jobs
        ≤ (get_resource_limits u1 s2).max_concurrent_jobs ∧
     (get_resource_limits u1 s1).max_failed_attempts
        ≤ (get_resource_limits u1 s2).max_failed_attempts ∧
     (get_resource_limits u1 s2).cooldown_period
        ≤ (get_resource_limits u1 s1).cooldown_period) := by
  refine ⟨rfl, ?_, ?_, ?_, ?_, ?_⟩
  · intro h90
    unfold get_resource_limits
    simp [h90]
  · intro h75 h90
    unfold get_resource_limits
    rw [if_neg (by linarith), if_pos h75]
  · intro h50 h75
    unfold get_resource_limits
    rw [if_neg (by linarith), if_neg (by linarith), if_pos h50]
  · intro h50
    unfold get_resource_limits
    rw [if_neg (by linarith), if_neg (by linarith), if_neg (by linarith)]
  · rw [get_resource_limits_eq_tier, get_resource_limits_eq_tier]
    exact resource_limits_mono _ _ (tierIdx_tierOf_mono h12)

/-- C5 witness: evaluated at the scores 80 (gold tier) and the monotone
pair 40 ≤ 95. -/
theorem C5_get_limits_witness :
    get_resource_limits "a" (80 : ℚ) = resource_limits .gold ∧
    (get_resource_limits "a" (40 : ℚ)).max_concurrent_jobs
      ≤ (get_resource_limits "a" (95 : ℚ)).max_concurrent_jobs ∧
    (get_resource_limits "a" (95 : ℚ)).cooldown_period
      ≤ (get_resource_limits "a" (40 : ℚ)).cooldown_period := by
  have h := C5_get_limits_tiers_and_monotone "a" "b" 80 40 95
    (by norm_num) (by norm_num) (by norm_num)
  exact ⟨h.2.2.1 (by norm_num) (by norm_num),
    h.2.2.2.2.2.2.2.2.2.1, h.2.2.2.2.2.2.2.2.2.2.2⟩

/-- C3 counterexample: `record_failed_attempt` takes no limit profile — it
always derives the bronze profile via `get_resource_limits(user_id, 0)` —
so the claimed behaviour fails for any caller whose profile would be a
higher tier: after a third recent failure the function returns `true` and
sets the cooldown to `now + 3600` (bronze), although the pruned ledger
length 3 is below the silver profile's `maxFailedAttempts = 5` and the
silver cooldown would be `now + 1800`. -/
theorem C3_record_failed_attempt_counterexample :
    (record_failed_attempt ⟨[("v", [999, 998])], []⟩ "v" "ip" 1 1000).2
      = true ∧
    alget (record_failed_attempt ⟨[("v", [999, 998])], []⟩ "v" "ip" 1
        1000).1.cooldowns "v" = some 4600 ∧
    ((alget (record_failed_attempt ⟨[("v", [999, 998])], []⟩ "v" "ip" 1
        1000).1.failed_attempts "v").getD []).length
      < (resource_limits .silver).max_failed_attempts ∧
    (4600 : Int) ≠ 1000 + ((resource_limits .silver).cooldown_period : Int) := by
  decide

/-- C3 (amended): `record_failed_attempt(callerId, ipAddress, errorCode)`
takes no profile argument; it always uses the lowest (bronze) profile
obtained from `get_resource_limits(callerId, 0)` (`cooldownSeconds =
3600`, `maxFailedAttempts = 3`).  It appends the current timestamp to the
caller's failure ledger, removes exactly the entries at or before
`now - 3600`, and returns `true` and sets `cooldownUntil = now + 3600` if
and only if the pruned ledger length is at least 3; the cooldown map is
unchanged otherwise, so `cooldownUntil` is set only when the recent
failure count has reached 3. -/
theorem C3_record_failed_attempt_bronze (st : SecurityState)
    (u ip : String) (ec now : Int) :
    alget (record_failed_attempt st u ip ec now).1.failed_attempts u
      = some ((((alget st.failed_attempts u).getD []) ++ [now]).filter
          (fun a => now - 3600 < a)) ∧
    (∀ v : Int,
       v ∈ (((alget st.failed_attempts u).getD []) ++ [now]).filter
           (fun a => now - 3600 < a)
         ↔ (v ∈ ((alget st.failed_attempts u).getD []) ++ [now] ∧
            now - 3600 < v)) ∧
    ((record_failed_attempt st u ip ec now).2 = true ↔
       3 ≤ ((((alget st.failed_attempts u).getD []) ++ [now]).filter
         (fun a => now - 3600 < a)).length) ∧
    ((record_failed_attempt st u ip ec now).2 = true →
       alget (record_failed_attempt st u ip ec now).1.cooldowns u
         = some (now + 3600)) ∧
    ((record_failed_attempt st u ip ec now).2 = false →
       (record_failed_attempt st u ip ec now).1.cooldowns = st.cooldowns) := by
  unfold record_failed_attempt
  rw [get_resource_limits_zero]
  by_cases hlen : (resource_limits QuantumScoreTier.bronze).max_failed_attempts
      ≤ ((((alget st.failed_attempts u).getD []) ++ [now]).filter
        (fun a => now - ((resource_limits
          QuantumScoreTier.bronze).cooldown_period : Int) < a)).length
  · simp only [hlen, if_true]
    refine ⟨alget_upsert_self _ _ _, ?_, ?_, ?_, ?_⟩
    · intro v
      simp only [List.mem_filter, List.mem_append, List.mem_singleton,
        decide_eq_true_eq]
    · exact ⟨fun _ => hlen, fun _ => trivial⟩
    · intro _
      exact alget_upsert_self _ _ _
    · intro hfalse
      exact absurd hfalse (by decide)
  · simp only [hlen, if_false]
    refine ⟨alget_upsert_self _ _ _, ?_, ?_, ?_, ?_⟩
    · intro v
      simp only [List.mem_filter, List.mem_append, List.mem_singleton,
        decide_eq_true_eq]
    · exact ⟨fun h2 => absurd h2 (by decide), fun h2 => absurd h2 hlen⟩
    · intro htrue
      exact absurd htrue (by decide)
    · intro _
      trivial

/-- C3 witness: evaluated on the ledger holding two recent failures at
t = 998 and 999 with a third failure recorded at t = 1000. -/
theorem C3_record_failed_attempt_bronze_witness :
    (record_failed_attempt ⟨[("u", [999, 998])], []⟩ "u" "ip" 1 1000).2
      = true ∧
    alget (record_failed_attempt ⟨[("u", [999, 998])], []⟩ "u" "ip" 1
        1000).1.cooldowns "u" = some 4600 := by
  have h := C3_record_failed_attempt_bronze ⟨[("u", [999, 998])], []⟩ "u"
    "ip" 1 1000
  have htrue := h.2.2.1.mpr (by decide)
  exact ⟨htrue, h.2.2.2.1 htrue⟩

/-- C1: code bug — no request is ever rejected for cooldown or for the
concurrency ceiling: `create_batch` never consults the security state, so
with the caller `alice` in cooldown (`check_cooldown` reports 100 seconds
remaining) her batch is still created as `pending` and scheduled, and a
second batch for the same caller is also accepted although the bronze
tier's `max_concurrent_jobs` is 1. -/
theorem C1_no_cooldown_or_quota_rejection :
    check_cooldown c1_security "alice" 100 = some 100 ∧
    (create_batch ⟨[], []⟩ "alice" "s" [0] 0 false 100).2.status
      = .pending ∧
    alget (create_batch ⟨[], []⟩ "alice" "s" [0] 0 false
        100).1.batches "alice_100"
      = some (create_batch ⟨[], []⟩ "alice" "s" [0] 0 false 100).2 ∧
    (resource_limits .bronze).max_concurrent_jobs = 1 ∧
    (create_batch (create_batch ⟨[], []⟩ "alice" "s" [0] 0 false 100).1
        "alice" "s" [1] 0 false 101).2.status = .pending ∧
    alget (create_batch (create_batch ⟨[], []⟩ "alice" "s" [0] 0 false
        100).1 "alice" "s" [1] 0 false 101).1.batches "alice_100" ≠ none := by
  decide

/-- C4: code bug — `retry_batch` does return a fresh `pending` batch with a
distinct id and the same job list and configuration, but it passes the job
list by reference: after the retried batch executes, the original `failed`
batch's per-job status has changed from `failed` to `completed`, so the
original is not left unmodified. -/
theorem C4_retry_batch_aliasing :
    (retry_batch c4_state "u_1" 2).2
      = some { batch_id := "u_2", user_id := "u", script_id := "s",
               jobs := [0], status := .pending, created_at := 2,
               started_at := none, completed_at := none,
               delay_between_jobs := 0, backend_balancing := false,
               error_message := none } ∧
    jobStatuses c4_state "u_1" = some [.failed] ∧
    jobStatuses (execute_batch (retry_batch c4_state "u_1" 2).1 "u_2"
        [true] 3).1 "u_1" = some [.completed] ∧
    (alget (execute_batch (retry_batch c4_state "u_1" 2).1 "u_2" [true]
        3).1.batches "u_1").map JobBatch.status = some .failed := by
  decide

theorem getD_zero_headD (outs : List Bool) :
    outs.getD 0 true = outs.headD true := by
  cases outs <;> rfl

theorem getD_drop_one (outs : List Bool) (k : Nat) :
    (outs.drop 1).getD k true = outs.getD (k + 1) true := by
  cases outs <;> rfl

theorem execute_jobs_frame (d : Nat) (refs : List Nat) (outs : List Bool)
    (store : List (Nat × Job)) (i : Nat) (r : Nat) (hr : r ∉ refs) :
    jget (execute_jobs .running d refs outs store i).1 r = jget store r := by
  induction refs generalizing outs store i with
  | nil => rfl
  | cons ref rest ih =>
      simp only [List.mem_cons, not_or] at hr
      unfold execute_jobs
      simp only [ne_eq, not_true_eq_false, if_false, ite_false,
        reduceIte]
      rw [ih _ _ _ hr.2]
      by_cases ho : outs.headD true = true
      · rw [if_pos ho, jget_execute_job_ne _ _ _ (fun he => hr.1 he.symm)]
      · rw [if_neg ho, jget_fail_job_ne _ _ _ _ (fun he => hr.1 he.symm)]

theorem execute_jobs_some (d : Nat) (refs : List Nat) (outs : List Bool)
    (store : List (Nat × Job)) (i : Nat)
    (hnd : refs.Nodup) (hsome : ∀ r ∈ refs, (jget store r).isSome) :
    ∀ k (hk : k < refs.length),
      (jget (execute_jobs .running d refs outs store i).1
          (refs.get ⟨k, hk⟩)).map Job.status
        = some (if outs.getD k true then JobStatus.completed
                else JobStatus.failed) := by
  induction refs generalizing outs store i with
  | nil =>
      intro k hk
      exact absurd hk (by simp)
  | cons ref rest ih =>
      intro k hk
      have hobt : (jget store ref).isSome := hsome ref (by simp)
      obtain ⟨j, hj⟩ := Option.isSome_iff_exists.mp hobt
      have hnd2 : rest.Nodup := (List.nodup_cons.mp hnd).2
      have hrefnot : ref ∉ rest := (List.nodup_cons.mp hnd).1
      have hsome2 : ∀ r ∈ rest,
          (jget (if outs.headD true then execute_job store ref
                 else fail_job store ref "job error") r).isSome := by
        intro r hrmem
        have hne : ref ≠ r := fun he => hrefnot (he ▸ hrmem)
        by_cases ho : outs.headD true = true
        · rw [if_pos ho, jget_execute_job_ne _ _ _ hne]
          exact hsome r (by simp [hrmem])
        · rw [if_neg ho, jget_fail_job_ne _ _ _ _ hne]
          exact hsome r (by simp [hrmem])
      unfold execute_jobs
      simp only [ne_eq, not_true_eq_false, if_false, ite_false, reduceIte]
      match k with
      | 0 =>
          rw [show (ref :: rest).get ⟨0, hk⟩ = ref from rfl, getD_zero_headD]
          rw [execute_jobs_frame _ _ _ _ _ _ hrefnot]
          by_cases ho : outs.headD true = true
          · rw [if_pos ho, if_pos ho]
            unfold execute_job
            rw [hj]
            simp [jget_jset_self]
          · rw [if_neg ho, if_neg ho]
            unfold fail_job
            rw [hj]
            simp [jget_jset_self]
      | k + 1 =>
          have hk2 : k < rest.length := by
            simpa using Nat.lt_of_succ_lt_succ hk
          have := ih (outs.drop 1)
            (if outs.headD true then execute_job store ref
             else fail_job store ref "job error") (i + 1) hnd2 hsome2 k hk2
          rw [show (ref :: rest).get ⟨k + 1, hk⟩ = rest.get ⟨k, hk2⟩ from rfl]
          rw [← getD_drop_one]
          exact this

theorem execute_jobs_trace (d : Nat) (refs : List Nat) (outs : List Bool)
    (store : List (Nat × Job)) (i : Nat) :
    (execute_jobs .running d refs outs store i).2 = job_trace d refs i := by
  induction refs generalizing outs store i with
  | nil => rfl
  | cons ref rest ih =>
      unfold execute_jobs job_trace
      simp only [ne_eq, not_true_eq_false, if_false, ite_false, reduceIte]
      rw [ih]
      simp

/-- C6: the batch status follows the state machine
`pending → running → terminal`: a batch is `pending` at creation, and once
it is terminal (`completed`, `failed` or `cancelled`) no scheduler
operation changes it — `cancel_batch` returns `false` and leaves the state
untouched, the execution loop's completion step only moves a `running`
batch, and `retry_batch` never mutates the original batch record. -/
theorem C6_batch_state_machine (st : SchedulerState) (u sc : String)
    (jobs : List Nat) (d : Nat) (bb : Bool) (now rnow : Int)
    (batch_id : String) (b : JobBatch)
    (hb : alget st.batches batch_id = some b)
    (hterm : b.status = .completed ∨ b.status = .failed ∨
      b.status = .cancelled)
    (hfresh : b.user_id ++ "_" ++ toString rnow ≠ batch_id) :
    (create_batch st u sc jobs d bb now).2.status = .pending ∧
    cancel_batch st batch_id now = (st, false) ∧
    complete_batch_step b now = b ∧
    alget (retry_batch st batch_id rnow).1.batches batch_id = some b := by
  have hnp : ¬(b.status = .pending ∨ b.status = .running) := by
    rcases hterm with h | h | h <;> simp [h]
  have hnr : ¬ b.status = .running := by
    rcases hterm with h | h | h <;> simp [h]
  refine ⟨rfl, ?_, ?_, ?_⟩
  · unfold cancel_batch
    simp only [hb]
    simp [hnp]
  · unfold complete_batch_step
    simp [hnr]
  · unfold retry_batch
    simp only [hb]
    by_cases hf : b.status = .failed
    · simp only [hf, if_true]
      unfold create_batch
      simp only
      rw [alget_upsert_ne _ _ _ _ hfresh]
      exact hb
    · simp only [hf, if_false]
      exact hb

/-- C6 witness: evaluated on the state holding the cancelled batch
`"b1"`. -/
theorem C6_batch_state_machine_witness :
    (create_batch c6_state "w" "s" [] 0 false 9).2.status = .pending ∧
    cancel_batch c6_state "b1" 9 = (c6_state, false) ∧
    complete_batch_step c6_batch 9 = c6_batch ∧
    alget (retry_batch c6_state "b1" 9).1.batches "b1" = some c6_batch :=
  C6_batch_state_machine c6_state "w" "s" [] 0 false 9 9 "b1" c6_batch
    (by decide) (by decide) (by decide)

/-- C7: when the execution loop runs without cancellation and without a
scheduler-internal exception, a per-job failure marks only that job
`failed` and the loop continues with every later job in order — waiting
`delay_between_jobs` before each job after the first — and the batch ends
`completed`; the per-job status is `completed` or `failed` according to
that job's own outcome. -/
theorem C7_single_failure_continues (st : SchedulerState)
    (batch_id : String) (b : JobBatch) (outcomes : List Bool) (now : Int)
    (hb : alget st.batches batch_id = some b)
    (hnd : b.jobs.Nodup)
    (hsome : ∀ r ∈ b.jobs, (jget st.job_store r).isSome) :
    ((alget (execute_batch st batch_id outcomes now).1.batches
        batch_id).map JobBatch.status = some .completed) ∧
    ((alget (execute_batch st batch_id outcomes now).1.batches
        batch_id).map JobBatch.jobs = some b.jobs) ∧
    (∀ k (hk : k < b.jobs.length),
       (jget (execute_batch st batch_id outcomes now).1.job_store
           (b.jobs.get ⟨k, hk⟩)).map Job.status
         = some (if outcomes.getD k true then JobStatus.completed
                 else JobStatus.failed)) ∧
    (execute_batch st batch_id outcomes now).2
      = job_trace b.delay_between_jobs b.jobs 0 := by
  unfold execute_batch
  simp only [hb]
  unfold complete_batch_step
  simp only [reduceIte]
  refine ⟨?_, ?_, ?_, ?_⟩
  · rw [alget_upsert_self]
    rfl
  · rw [alget_upsert_self]
    rfl
  · intro k hk
    exact execute_jobs_some _ _ _ _ _ hnd hsome k hk
  · exact execute_jobs_trace _ _ _ _ _

/-- C7 witness: end-to-end scenario D — a 3-job batch with a 2-second
inter-job delay in which only job 2 fails ends `completed` with per-job
statuses `[completed, failed, completed]` and sleeps before jobs 2
and 3. -/
theorem C7_single_failure_continues_witness :
    (alget (execute_batch c7_state "u_1" [true, false, true]
        5).1.batches "u_1").map JobBatch.status = some .completed ∧
    (jget (execute_batch c7_state "u_1" [true, false, true]
        5).1.job_store 0).map Job.status = some .completed ∧
    (jget (execute_batch c7_state "u_1" [true, false, true]
        5).1.job_store 1).map Job.status = some .failed ∧
    (jget (execute_batch c7_state "u_1" [true, false, true]
        5).1.job_store 2).map Job.status = some .completed ∧
    (execute_batch c7_state "u_1" [true, false, true] 5).2
      = [.run_job 0, .sleep 2, .run_job 1, .sleep 2, .run_job 2] := by
  have h := C7_single_failure_continues c7_state "u_1" c7_batch
    [true, false, true] 5 (by decide) (by decide) (by decide)
  refine ⟨h.1, ?_, ?_, ?_, ?_⟩
  · exact h.2.2.1 0 (by decide)
  · exact h.2.2.1 1 (by decide)
  · exact h.2.2.1 2 (by decide)
  · rw [h.2.2.2]
    decide

end Nibiru
